import Mathlib

/-!
Verification of the Da Tong Zi rules engine.

This file is a shallow embedding, in Lean 4, of the pattern-recognition and
play-validation core of the repository:

* `src/datongzi_rules/models/card.py` — `Suit`, `Rank`, `Card`;
* `src/datongzi_rules/patterns/recognizer.py` — `PlayType`, `PlayPattern`,
  `PatternRecognizer.analyze_cards` with its ten `_check_*` helpers,
  `PlayValidator.can_beat_play` and `PlayValidator._compare_patterns`;
* `python/src/datongzi_rules/ai_helpers/hand_pattern_analyzer.py` —
  `HandPatterns` and `HandPatternAnalyzer.analyze_patterns` with its
  `_extract_*` / `_find_*` helpers.

Python lists become Lean `List`s, `None`-returning functions become
`Option`-valued ones, `Counter` cardinalities and counts become lengths of
`List.filter`, and the iteration over a `Counter`'s distinct keys becomes an
iteration over the deduplicated (and, where the source sorts, sorted) key
list.  Card multisets are compared through the `Multiset` coercion of lists.
-/

/-- Card suits with ranking order (higher value = higher rank). -/
inductive Suit where
  | DIAMONDS
  | CLUBS
  | HEARTS
  | SPADES
deriving DecidableEq, Repr

/-- Numeric value of a suit, as in the Python `IntEnum` (1..4). -/
def Suit.value : Suit → Nat
  | .DIAMONDS => 1
  | .CLUBS => 2
  | .HEARTS => 3
  | .SPADES => 4

/-- Card ranks; 2 is the highest rank in this game. -/
inductive Rank where
  | FIVE
  | SIX
  | SEVEN
  | EIGHT
  | NINE
  | TEN
  | JACK
  | QUEEN
  | KING
  | ACE
  | TWO
deriving DecidableEq, Repr, Fintype

/-- Numeric value of a rank, as in the Python `IntEnum` (5..15). -/
def Rank.value : Rank → Nat
  | .FIVE => 5
  | .SIX => 6
  | .SEVEN => 7
  | .EIGHT => 8
  | .NINE => 9
  | .TEN => 10
  | .JACK => 11
  | .QUEEN => 12
  | .KING => 13
  | .ACE => 14
  | .TWO => 15

/-- A playing card: an immutable (suit, rank) pair. -/
structure Card where
  suit : Suit
  rank : Rank
deriving DecidableEq, Repr

/-- Play types (the Python `PlayType` enumeration). -/
inductive PlayType where
  | SINGLE
  | PAIR
  | CONSECUTIVE_PAIRS
  | TRIPLE
  | TRIPLE_WITH_TWO
  | AIRPLANE
  | AIRPLANE_WITH_WINGS
  | BOMB
  | TONGZI
  | DIZHA
deriving DecidableEq, Repr

/-- A recognized pattern of cards (the Python `PlayPattern` dataclass; the
`None` default of `secondary_ranks` is normalized to `[]` by
`__post_init__`, so the field is a plain list here). -/
structure PlayPattern where
  play_type : PlayType
  primary_rank : Rank
  primary_suit : Option Suit := none
  secondary_ranks : List Rank := []
  card_count : Nat := 0
  strength : Nat := 0
deriving DecidableEq, Repr

/-- Rank comparison by numeric value (the key used by every
`sorted(..., key=lambda r: r.value)` in the source). -/
def rankLe (a b : Rank) : Prop := a.value ≤ b.value

instance : DecidableRel rankLe := fun a b => Nat.decLe a.value b.value

theorem Rank.value_inj : ∀ a b : Rank, a.value = b.value → a = b := by decide

instance : IsTotal Rank rankLe := ⟨fun a b => Nat.le_total a.value b.value⟩

instance : IsTrans Rank rankLe := ⟨fun _ _ _ h1 h2 => Nat.le_trans h1 h2⟩

instance : IsAntisymm Rank rankLe :=
  ⟨fun a b h1 h2 => Rank.value_inj a b (Nat.le_antisymm h1 h2)⟩

/-- Number of cards of rank `r` (the Python `rank_counts[r]`). -/
def count_rank (cards : List Card) (r : Rank) : Nat :=
  (cards.filter (fun c => c.rank = r)).length

/-- Number of cards of suit `s` and rank `r` (the Python
`suit_rank_counts[(s, r)]`). -/
def count_suit_rank (cards : List Card) (s : Suit) (r : Rank) : Nat :=
  (cards.filter (fun c => c.suit = s ∧ c.rank = r)).length

/-- The distinct ranks of the hand, sorted by numeric value: the Python
`sorted(rank_counts.keys(), key=lambda r: r.value)`. -/
def sorted_ranks (cards : List Card) : List Rank :=
  ((cards.map Card.rank).dedup).insertionSort rankLe

/-- The distinct (suit, rank) combinations (keys of the Python
`suit_rank_counts`). -/
def distinct_suit_ranks (cards : List Card) : List (Suit × Rank) :=
  (cards.map (fun c => (c.suit, c.rank))).dedup

/-- `PatternRecognizer._are_consecutive`: adjacent numeric values differ by
exactly one.  There is no wrap-around between the value of 2 (15) and the
value of 5 (5). -/
def are_consecutive : List Rank → Bool
  | [] => true
  | [_] => true
  | a :: b :: rest => (decide (b.value = a.value + 1)) && are_consecutive (b :: rest)

/-- `PatternRecognizer._check_single`. -/
def check_single (cards : List Card) : Option PlayPattern :=
  match cards with
  | [card] =>
      some { play_type := .SINGLE, primary_rank := card.rank,
             primary_suit := some card.suit, card_count := 1,
             strength := card.rank.value }
  | _ => none

/-- `PatternRecognizer._check_pair`. -/
def check_pair (cards : List Card) : Option PlayPattern :=
  if cards.length = 2 then
    match sorted_ranks cards with
    | [rank] =>
        if count_rank cards rank = 2 then
          some { play_type := .PAIR, primary_rank := rank, card_count := 2,
                 strength := rank.value }
        else none
    | _ => none
  else none

/-- `PatternRecognizer._check_consecutive_pairs`. -/
def check_consecutive_pairs (cards : List Card) : Option PlayPattern :=
  if cards.length < 4 ∨ cards.length % 2 ≠ 0 then none
  else if (sorted_ranks cards).any (fun r => count_rank cards r ≠ 2) then none
  else if are_consecutive (sorted_ranks cards) then
    some { play_type := .CONSECUTIVE_PAIRS,
           primary_rank := (sorted_ranks cards).getLastD .FIVE,
           secondary_ranks := sorted_ranks cards,
           card_count := cards.length,
           strength := ((sorted_ranks cards).getLastD .FIVE).value * 1000 +
             (sorted_ranks cards).length }
  else none

/-- `PatternRecognizer._check_triple`. -/
def check_triple (cards : List Card) : Option PlayPattern :=
  if cards.length = 3 then
    match sorted_ranks cards with
    | [rank] =>
        if count_rank cards rank = 3 then
          some { play_type := .TRIPLE, primary_rank := rank, card_count := 3,
                 strength := rank.value }
        else none
    | _ => none
  else none

/-- `PatternRecognizer._check_triple_with_two`. -/
def check_triple_with_two (cards : List Card) : Option PlayPattern :=
  if cards.length = 5 ∧ (sorted_ranks cards).length = 2 then
    if 3 ∈ (sorted_ranks cards).map (count_rank cards) ∧
       2 ∈ (sorted_ranks cards).map (count_rank cards) then
      match (sorted_ranks cards).find? (fun r => count_rank cards r = 3) with
      | some triple_rank =>
          some { play_type := .TRIPLE_WITH_TWO, primary_rank := triple_rank,
                 card_count := 5, strength := triple_rank.value }
      | none => none
    else none
  else none

/-- `PatternRecognizer._check_airplane`. -/
def check_airplane (cards : List Card) : Option PlayPattern :=
  if cards.length < 6 ∨ cards.length % 3 ≠ 0 then none
  else if (sorted_ranks cards).any (fun r => count_rank cards r ≠ 3) then none
  else if are_consecutive (sorted_ranks cards) then
    some { play_type := .AIRPLANE,
           primary_rank := (sorted_ranks cards).getLastD .FIVE,
           secondary_ranks := sorted_ranks cards,
           card_count := cards.length,
           strength := ((sorted_ranks cards).getLastD .FIVE).value * 1000 +
             (sorted_ranks cards).length }
  else none

/-- `PatternRecognizer._check_airplane_with_wings`: greedy search over
consecutive runs of triple-candidate ranks, longest runs first and, within a
length, leftmost first; the first run whose wing count lies in [N, 2N] is
returned. -/
def check_airplane_with_wings (cards : List Card) : Option PlayPattern :=
  if cards.length < 8 then none
  else
    let sorted_candidates := (sorted_ranks cards).filter (fun r => 3 ≤ count_rank cards r)
    if sorted_candidates.length < 2 then none
    else
      (List.range (sorted_candidates.length - 1)).findSome? (fun k =>
        let len := sorted_candidates.length - k
        (List.range (sorted_candidates.length - len + 1)).findSome? (fun i =>
          let candidate_ranks := (sorted_candidates.drop i).take len
          if are_consecutive candidate_ranks then
            let num_triples := candidate_ranks.length
            let wing_cards := cards.length - num_triples * 3
            if num_triples ≤ wing_cards ∧ wing_cards ≤ 2 * num_triples then
              some { play_type := .AIRPLANE_WITH_WINGS,
                     primary_rank := candidate_ranks.getLastD .FIVE,
                     secondary_ranks := candidate_ranks,
                     card_count := cards.length,
                     strength := (candidate_ranks.getLastD .FIVE).value * 1000 +
                       candidate_ranks.length }
            else none
          else none))

/-- `PatternRecognizer._check_bomb`. -/
def check_bomb (cards : List Card) : Option PlayPattern :=
  if cards.length < 4 then none
  else
    match sorted_ranks cards with
    | [rank] =>
        if count_rank cards rank < 4 then none
        else
          some { play_type := .BOMB, primary_rank := rank,
                 card_count := count_rank cards rank,
                 strength := rank.value * 1000 + count_rank cards rank }
    | _ => none

/-- `PatternRecognizer._check_tongzi`. -/
def check_tongzi (cards : List Card) : Option PlayPattern :=
  if cards.length = 3 ∧ (sorted_ranks cards).length = 1 then
    match distinct_suit_ranks cards with
    | [(s, r)] =>
        if count_suit_rank cards s r = 3 then
          some { play_type := .TONGZI, primary_rank := r, primary_suit := some s,
                 card_count := 3, strength := r.value * 10000 + s.value * 1000 }
        else none
    | _ => none
  else none

/-- The four suits in Python `Suit` enumeration order. -/
def suit_list : List Suit := [.DIAMONDS, .CLUBS, .HEARTS, .SPADES]

/-- `PatternRecognizer._check_dizha`. -/
def check_dizha (cards : List Card) : Option PlayPattern :=
  if cards.length = 8 then
    match sorted_ranks cards with
    | [rank] =>
        if (suit_list.filter (fun s => count_suit_rank cards s rank ≠ 0)).length = 4 then
          if suit_list.all (fun s => count_suit_rank cards s rank = 2) then
            some { play_type := .DIZHA, primary_rank := rank, card_count := 8,
                   strength := rank.value * 100000 }
          else none
        else none
    | _ => none
  else none

/-- The ten `_check_*` helpers in the exact priority order in which
`PatternRecognizer.analyze_cards` tries them. -/
def checks : List (List Card → Option PlayPattern) :=
  [check_dizha, check_tongzi, check_bomb, check_airplane,
   check_airplane_with_wings, check_triple_with_two, check_triple,
   check_consecutive_pairs, check_pair, check_single]

/-- `PatternRecognizer.analyze_cards`: empty input yields no pattern,
otherwise the first successful check wins. -/
def analyze_cards (cards : List Card) : Option PlayPattern :=
  if cards = [] then none
  else checks.findSome? (fun f => f cards)

/-- The three chain play types (the list literal in
`PlayValidator._compare_patterns`). -/
def chain_types : List PlayType := [.CONSECUTIVE_PAIRS, .AIRPLANE, .AIRPLANE_WITH_WINGS]

/-- `PlayValidator._compare_patterns`. -/
def compare_patterns (new_pattern current_pattern : PlayPattern) : Bool :=
  if new_pattern.play_type = .DIZHA then
    if current_pattern.play_type ≠ .DIZHA then true
    else decide (current_pattern.primary_rank.value < new_pattern.primary_rank.value)
  else if current_pattern.play_type = .DIZHA then false
  else if new_pattern.play_type = .TONGZI then
    if current_pattern.play_type = .BOMB then true
    else if current_pattern.play_type ≠ .TONGZI then false
    else if current_pattern.primary_rank.value < new_pattern.primary_rank.value then true
    else if new_pattern.primary_rank.value = current_pattern.primary_rank.value then
      match new_pattern.primary_suit, current_pattern.primary_suit with
      | some s1, some s2 => decide (s2.value < s1.value)
      | _, _ => false
    else false
  else if current_pattern.play_type = .TONGZI then false
  else if new_pattern.play_type = .BOMB then
    if current_pattern.play_type ≠ .BOMB then true
    else if current_pattern.primary_rank.value < new_pattern.primary_rank.value then true
    else if new_pattern.primary_rank.value = current_pattern.primary_rank.value then
      decide (current_pattern.card_count < new_pattern.card_count)
    else false
  else if current_pattern.play_type = .BOMB then false
  else if new_pattern.play_type ≠ current_pattern.play_type then false
  else if new_pattern.play_type ∈ chain_types ∧
          new_pattern.secondary_ranks.length ≠ current_pattern.secondary_ranks.length then
    false
  else decide (current_pattern.strength < new_pattern.strength)

/-- `PlayValidator.can_beat_play`. -/
def can_beat_play (new_cards : List Card) (current_play : Option PlayPattern) : Bool :=
  match current_play with
  | none => (analyze_cards new_cards).isSome
  | some current =>
      match analyze_cards new_cards with
      | none => false
      | some new_pattern => compare_patterns new_pattern current

/-! ### Inversion lemmas for the recognizer -/

theorem check_single_play_type (cards : List Card) (p : PlayPattern)
    (h : check_single cards = some p) : p.play_type = .SINGLE := by
  unfold check_single at h
  split at h
  · cases h; rfl
  · simp_all

theorem check_pair_play_type (cards : List Card) (p : PlayPattern)
    (h : check_pair cards = some p) : p.play_type = .PAIR := by
  unfold check_pair at h
  repeat' split at h
  all_goals first | (cases h; rfl) | simp_all

theorem check_consecutive_pairs_play_type (cards : List Card) (p : PlayPattern)
    (h : check_consecutive_pairs cards = some p) : p.play_type = .CONSECUTIVE_PAIRS := by
  unfold check_consecutive_pairs at h
  repeat' split at h
  all_goals first | (cases h; rfl) | simp_all

theorem check_triple_play_type (cards : List Card) (p : PlayPattern)
    (h : check_triple cards = some p) : p.play_type = .TRIPLE := by
  unfold check_triple at h
  repeat' split at h
  all_goals first | (cases h; rfl) | simp_all

theorem check_triple_with_two_play_type (cards : List Card) (p : PlayPattern)
    (h : check_triple_with_two cards = some p) : p.play_type = .TRIPLE_WITH_TWO := by
  unfold check_triple_with_two at h
  repeat' split at h
  all_goals first | (cases h; rfl) | simp_all

theorem check_airplane_play_type (cards : List Card) (p : PlayPattern)
    (h : check_airplane cards = some p) : p.play_type = .AIRPLANE := by
  unfold check_airplane at h
  repeat' split at h
  all_goals first | (cases h; rfl) | simp_all

theorem check_airplane_with_wings_play_type (cards : List Card) (p : PlayPattern)
    (h : check_airplane_with_wings cards = some p) : p.play_type = .AIRPLANE_WITH_WINGS := by
  unfold check_airplane_with_wings at h
  split at h
  · simp_all
  · try dsimp only at h
    split at h
    · simp_all
    · obtain ⟨k, _, hk⟩ := List.exists_of_findSome?_eq_some h
      clear h
      try dsimp only at hk
      obtain ⟨i, _, hi⟩ := List.exists_of_findSome?_eq_some hk
      clear hk
      try dsimp only at hi
      repeat' split at hi
      all_goals first | (cases hi; rfl) | (exact absurd hi (by simp))

theorem check_bomb_play_type (cards : List Card) (p : PlayPattern)
    (h : check_bomb cards = some p) : p.play_type = .BOMB := by
  unfold check_bomb at h
  repeat' split at h
  all_goals first | (cases h; rfl) | simp_all

theorem check_tongzi_play_type (cards : List Card) (p : PlayPattern)
    (h : check_tongzi cards = some p) : p.play_type = .TONGZI := by
  unfold check_tongzi at h
  repeat' split at h
  all_goals first | (cases h; rfl) | simp_all

theorem check_dizha_play_type (cards : List Card) (p : PlayPattern)
    (h : check_dizha cards = some p) : p.play_type = .DIZHA := by
  unfold check_dizha at h
  repeat' split at h
  all_goals first | (cases h; rfl) | simp_all

/-- Any pattern produced by `check_tongzi` carries its suit. -/
theorem check_tongzi_primary_suit (cards : List Card) (p : PlayPattern)
    (h : check_tongzi cards = some p) : ∃ s, p.primary_suit = some s := by
  unfold check_tongzi at h
  repeat' split at h
  all_goals first | (cases h; exact ⟨_, rfl⟩) | simp_all

/-- A successful recognition came from one of the ten checks, tried in
priority order. -/
theorem analyze_cases (cards : List Card) (p : PlayPattern)
    (h : analyze_cards cards = some p) :
    check_dizha cards = some p ∨ check_tongzi cards = some p ∨
    check_bomb cards = some p ∨ check_airplane cards = some p ∨
    check_airplane_with_wings cards = some p ∨
    check_triple_with_two cards = some p ∨ check_triple cards = some p ∨
    check_consecutive_pairs cards = some p ∨ check_pair cards = some p ∨
    check_single cards = some p := by
  unfold analyze_cards at h
  split at h
  · simp_all
  · simp only [checks, List.findSome?_cons] at h
    repeat' split at h
    all_goals simp_all

/-- A recognized pattern of type `TONGZI` was produced by `check_tongzi`. -/
theorem analyze_tongzi_inv (cards : List Card) (p : PlayPattern)
    (h : analyze_cards cards = some p) (ht : p.play_type = .TONGZI) :
    check_tongzi cards = some p := by
  rcases analyze_cases cards p h with h' | h' | h' | h' | h' | h' | h' | h' | h' | h'
  · have := check_dizha_play_type cards p h'; simp_all
  · exact h'
  · have := check_bomb_play_type cards p h'; simp_all
  · have := check_airplane_play_type cards p h'; simp_all
  · have := check_airplane_with_wings_play_type cards p h'; simp_all
  · have := check_triple_with_two_play_type cards p h'; simp_all
  · have := check_triple_play_type cards p h'; simp_all
  · have := check_consecutive_pairs_play_type cards p h'; simp_all
  · have := check_pair_play_type cards p h'; simp_all
  · have := check_single_play_type cards p h'; simp_all

/-! ### Claim theorems about the play validator -/

/-- The three trump play types of the beat hierarchy (spec glossary): the
types that beat structurally different patterns via special cases. -/
def trump_types : List PlayType := [.BOMB, .TONGZI, .DIZHA]

/-- C3: a Dizha beats every non-Dizha pattern; Dizha vs Dizha compares by
rank only; and a non-Dizha never beats a Dizha. -/
theorem dizha_supremacy (p q : PlayPattern) :
    (p.play_type = PlayType.DIZHA → q.play_type ≠ PlayType.DIZHA →
      compare_patterns p q = true) ∧
    (p.play_type = PlayType.DIZHA → q.play_type = PlayType.DIZHA →
      (compare_patterns p q = true ↔ q.primary_rank.value < p.primary_rank.value)) ∧
    (q.play_type = PlayType.DIZHA → p.play_type ≠ PlayType.DIZHA →
      compare_patterns p q = false) := by
  refine ⟨fun h1 h2 => ?_, fun h1 h2 => ?_, fun h1 h2 => ?_⟩ <;>
    simp [compare_patterns, h1, h2]

theorem dizha_supremacy_witness :
    compare_patterns { play_type := .DIZHA, primary_rank := .ACE }
      { play_type := .BOMB, primary_rank := .TWO } = true ∧
    (compare_patterns { play_type := .DIZHA, primary_rank := .ACE }
        { play_type := .DIZHA, primary_rank := .KING } = true ↔
      Rank.KING.value < Rank.ACE.value) ∧
    compare_patterns { play_type := .SINGLE, primary_rank := .TWO }
      { play_type := .DIZHA, primary_rank := .FIVE } = false :=
  ⟨(dizha_supremacy { play_type := .DIZHA, primary_rank := .ACE }
      { play_type := .BOMB, primary_rank := .TWO }).1 rfl (by decide),
   (dizha_supremacy { play_type := .DIZHA, primary_rank := .ACE }
      { play_type := .DIZHA, primary_rank := .KING }).2.1 rfl rfl,
   (dizha_supremacy { play_type := .SINGLE, primary_rank := .TWO }
      { play_type := .DIZHA, primary_rank := .FIVE }).2.2 rfl (by decide)⟩

/-- C5: a Bomb beats any non-trump pattern unconditionally; Bomb vs Bomb of
equal rank compares by card count; a Bomb beats any lower-ranked Bomb. -/
theorem bomb_beats (p q : PlayPattern) (hpt : p.play_type = PlayType.BOMB) :
    (q.play_type ≠ PlayType.BOMB → q.play_type ≠ PlayType.TONGZI →
      q.play_type ≠ PlayType.DIZHA → compare_patterns p q = true) ∧
    (q.play_type = PlayType.BOMB → p.primary_rank.value = q.primary_rank.value →
      (compare_patterns p q = true ↔ q.card_count < p.card_count)) ∧
    (q.play_type = PlayType.BOMB → q.primary_rank.value < p.primary_rank.value →
      compare_patterns p q = true) := by
  refine ⟨fun h1 h2 h3 => ?_, fun h1 h2 => ?_, fun h1 h2 => ?_⟩
  · simp [compare_patterns, hpt, h1, h2, h3]
  · simp [compare_patterns, hpt, h1, h2]
  · simp [compare_patterns, hpt, h1, h2]

theorem bomb_beats_witness :
    compare_patterns { play_type := .BOMB, primary_rank := .FIVE, card_count := 4 }
      { play_type := .AIRPLANE, primary_rank := .TWO } = true ∧
    (compare_patterns { play_type := .BOMB, primary_rank := .FIVE, card_count := 5 }
        { play_type := .BOMB, primary_rank := .FIVE, card_count := 4 } = true ↔ (4 < 5)) ∧
    compare_patterns { play_type := .BOMB, primary_rank := .SIX, card_count := 4 }
      { play_type := .BOMB, primary_rank := .FIVE, card_count := 10 } = true :=
  ⟨(bomb_beats { play_type := .BOMB, primary_rank := .FIVE, card_count := 4 }
      { play_type := .AIRPLANE, primary_rank := .TWO } rfl).1 (by decide) (by decide) (by decide),
   (bomb_beats { play_type := .BOMB, primary_rank := .FIVE, card_count := 5 }
      { play_type := .BOMB, primary_rank := .FIVE, card_count := 4 } rfl).2.1 rfl rfl,
   (bomb_beats { play_type := .BOMB, primary_rank := .SIX, card_count := 4 }
      { play_type := .BOMB, primary_rank := .FIVE, card_count := 10 } rfl).2.2 rfl (by decide)⟩

/-- C6: same-type chains of different lengths never beat each other;
non-trump patterns of different types never beat each other; same-type,
same-length (for chains) non-trump patterns compare by strict strength. -/
theorem chain_gating (p q : PlayPattern) :
    (p.play_type = q.play_type → p.play_type ∈ chain_types →
      p.secondary_ranks.length ≠ q.secondary_ranks.length →
      compare_patterns p q = false) ∧
    (p.play_type ∉ trump_types → q.play_type ∉ trump_types →
      p.play_type ≠ q.play_type → compare_patterns p q = false) ∧
    (p.play_type = q.play_type → p.play_type ∉ trump_types →
      (p.play_type ∈ chain_types → p.secondary_ranks.length = q.secondary_ranks.length) →
      (compare_patterns p q = true ↔ q.strength < p.strength)) := by
  refine ⟨fun h1 h2 h3 => ?_, fun h1 h2 h3 => ?_, fun h1 h2 h3 => ?_⟩
  · simp only [chain_types, List.mem_cons, List.mem_singleton, List.not_mem_nil, or_false] at h2
    rcases h2 with h2 | h2 | h2 <;>
      simp [compare_patterns, chain_types, h2, h1 ▸ h2, h3]
  · simp only [trump_types, List.mem_cons, List.mem_singleton, List.not_mem_nil, or_false] at h1 h2
    push_neg at h1 h2
    obtain ⟨ha, hb, hc⟩ := h1
    obtain ⟨hd, he, hf⟩ := h2
    simp [compare_patterns, ha, hb, hc, hd, he, hf, h3]
  · simp only [trump_types, List.mem_cons, List.mem_singleton, List.not_mem_nil, or_false] at h2
    push_neg at h2
    obtain ⟨ha, hb, hc⟩ := h2
    have hq1 : q.play_type ≠ PlayType.BOMB := h1 ▸ ha
    have hq2 : q.play_type ≠ PlayType.TONGZI := h1 ▸ hb
    have hq3 : q.play_type ≠ PlayType.DIZHA := h1 ▸ hc
    by_cases hcm : p.play_type ∈ chain_types
    · have hlen := h3 hcm
      simp [compare_patterns, ha, hb, hc, hq1, hq2, hq3, h1, hcm, hlen]
    · have hqm : q.play_type ∉ chain_types := h1 ▸ hcm
      simp [compare_patterns, ha, hb, hc, hq1, hq2, hq3, h1, hcm, hqm]

theorem chain_gating_witness :
    compare_patterns
      { play_type := .AIRPLANE, primary_rank := .TWO, secondary_ranks := [.ACE, .TWO], strength := 15002 }
      { play_type := .AIRPLANE, primary_rank := .SEVEN, secondary_ranks := [.FIVE, .SIX, .SEVEN], strength := 7003 } = false ∧
    compare_patterns { play_type := .PAIR, primary_rank := .QUEEN, strength := 12 }
      { play_type := .TRIPLE, primary_rank := .FIVE, strength := 5 } = false ∧
    (compare_patterns { play_type := .PAIR, primary_rank := .QUEEN, strength := 12 }
        { play_type := .PAIR, primary_rank := .JACK, strength := 11 } = true ↔ (11 < 12)) :=
  ⟨(chain_gating
      { play_type := .AIRPLANE, primary_rank := .TWO, secondary_ranks := [.ACE, .TWO], strength := 15002 }
      { play_type := .AIRPLANE, primary_rank := .SEVEN, secondary_ranks := [.FIVE, .SIX, .SEVEN], strength := 7003 }).1
      rfl (by decide) (by decide),
   (chain_gating { play_type := .PAIR, primary_rank := .QUEEN, strength := 12 }
      { play_type := .TRIPLE, primary_rank := .FIVE, strength := 5 }).2.1
      (by decide) (by decide) (by decide),
   (chain_gating { play_type := .PAIR, primary_rank := .QUEEN, strength := 12 }
      { play_type := .PAIR, primary_rank := .JACK, strength := 11 }).2.2
      rfl (by decide) (by decide)⟩

/-- C8: with no current play, a move is legal exactly when it recognizes to
some pattern; in particular the empty list cannot open a round, and failure
is an absent result, not a fault. -/
theorem beats_open_round (cs : List Card) :
    can_beat_play cs none = (analyze_cards cs).isSome ∧
    (cs = [] → can_beat_play cs none = false) := by
  refine ⟨rfl, fun h => ?_⟩
  subst h
  rfl

theorem beats_open_round_witness :
    can_beat_play ([] : List Card) none = (analyze_cards ([] : List Card)).isSome ∧
    can_beat_play ([] : List Card) none = false :=
  ⟨(beats_open_round []).1, (beats_open_round []).2 rfl⟩

/-- C4: a recognized Tongzi beats any Bomb; Tongzi vs Tongzi compares by
rank then suit lexicographically; a Tongzi beats nothing else (among
non-Dizha current patterns). -/
theorem tongzi_beats (cs cs' : List Card) (p q : PlayPattern)
    (hp : analyze_cards cs = some p) (hq : analyze_cards cs' = some q)
    (hpt : p.play_type = PlayType.TONGZI) :
    (q.play_type = PlayType.BOMB → compare_patterns p q = true) ∧
    (q.play_type = PlayType.TONGZI →
      ∃ s s', p.primary_suit = some s ∧ q.primary_suit = some s' ∧
        (compare_patterns p q = true ↔
          (q.primary_rank.value < p.primary_rank.value ∨
            (p.primary_rank.value = q.primary_rank.value ∧ s'.value < s.value)))) ∧
    (q.play_type ≠ PlayType.DIZHA → q.play_type ≠ PlayType.BOMB →
      q.play_type ≠ PlayType.TONGZI → compare_patterns p q = false) := by
  refine ⟨fun hqt => ?_, fun hqt => ?_, fun hq1 hq2 hq3 => ?_⟩
  · simp [compare_patterns, hpt, hqt]
  · obtain ⟨s, hs⟩ := check_tongzi_primary_suit cs p (analyze_tongzi_inv cs p hp hpt)
    obtain ⟨s', hs'⟩ := check_tongzi_primary_suit cs' q (analyze_tongzi_inv cs' q hq hqt)
    refine ⟨s, s', hs, hs', ?_⟩
    rcases Nat.lt_trichotomy q.primary_rank.value p.primary_rank.value with hlt | heq | hgt
    · simp [compare_patterns, hpt, hqt, hlt]
    · simp [compare_patterns, hpt, hqt, heq, hs, hs', Nat.lt_irrefl]
    · have h1 : ¬ q.primary_rank.value < p.primary_rank.value := by omega
      have h2 : ¬ p.primary_rank.value = q.primary_rank.value := by omega
      simp [compare_patterns, hpt, hqt, h1, h2]
  · simp [compare_patterns, hpt, hq1, hq2, hq3]

theorem tongzi_beats_witness :
    compare_patterns
      { play_type := .TONGZI, primary_rank := .KING, primary_suit := some .SPADES,
        card_count := 3, strength := 134000 }
      { play_type := .BOMB, primary_rank := .NINE, card_count := 4, strength := 9004 } = true ∧
    compare_patterns
      { play_type := .TONGZI, primary_rank := .KING, primary_suit := some .SPADES,
        card_count := 3, strength := 134000 }
      { play_type := .TONGZI, primary_rank := .KING, primary_suit := some .HEARTS,
        card_count := 3, strength := 133000 } = true ∧
    compare_patterns
      { play_type := .TONGZI, primary_rank := .KING, primary_suit := some .SPADES,
        card_count := 3, strength := 134000 }
      { play_type := .PAIR, primary_rank := .QUEEN, card_count := 2, strength := 12 } = false := by
  refine ⟨?_, ?_, ?_⟩
  · exact (tongzi_beats
      [⟨.SPADES, .KING⟩, ⟨.SPADES, .KING⟩, ⟨.SPADES, .KING⟩]
      [⟨.SPADES, .NINE⟩, ⟨.HEARTS, .NINE⟩, ⟨.CLUBS, .NINE⟩, ⟨.DIAMONDS, .NINE⟩]
      { play_type := .TONGZI, primary_rank := .KING, primary_suit := some .SPADES,
        card_count := 3, strength := 134000 }
      { play_type := .BOMB, primary_rank := .NINE, card_count := 4, strength := 9004 }
      (by decide) (by decide) rfl).1 rfl
  · have h := (tongzi_beats
      [⟨.SPADES, .KING⟩, ⟨.SPADES, .KING⟩, ⟨.SPADES, .KING⟩]
      [⟨.HEARTS, .KING⟩, ⟨.HEARTS, .KING⟩, ⟨.HEARTS, .KING⟩]
      { play_type := .TONGZI, primary_rank := .KING, primary_suit := some .SPADES,
        card_count := 3, strength := 134000 }
      { play_type := .TONGZI, primary_rank := .KING, primary_suit := some .HEARTS,
        card_count := 3, strength := 133000 }
      (by decide) (by decide) rfl).2.1 rfl
    obtain ⟨s, s', hs, hs', hiff⟩ := h
    cases hs
    cases hs'
    exact hiff.mpr (Or.inr ⟨rfl, by decide⟩)
  · exact (tongzi_beats
      [⟨.SPADES, .KING⟩, ⟨.SPADES, .KING⟩, ⟨.SPADES, .KING⟩]
      [⟨.SPADES, .QUEEN⟩, ⟨.HEARTS, .QUEEN⟩]
      { play_type := .TONGZI, primary_rank := .KING, primary_suit := some .SPADES,
        card_count := 3, strength := 134000 }
      { play_type := .PAIR, primary_rank := .QUEEN, card_count := 2, strength := 12 }
      (by decide) (by decide) rfl).2.2 (by decide) (by decide) (by decide)

theorem airplane_priority (cs : List Card) (p : PlayPattern)
    (hap : check_airplane cs = some p)
    (_haww : check_airplane_with_wings cs ≠ none) :
    analyze_cards cs = some p ∧ p.play_type = PlayType.AIRPLANE := by
  refine ⟨?_, check_airplane_play_type cs p hap⟩
  have h6 : 6 ≤ cs.length ∧ cs.length % 3 = 0 := by
    unfold check_airplane at hap
    split at hap
    · simp at hap
    · rename_i hguard
      push_neg at hguard
      omega
  have hcnt : ∀ r ∈ sorted_ranks cs, count_rank cs r = 3 := by
    unfold check_airplane at hap
    split at hap
    · simp at hap
    · split at hap
      · simp at hap
      · rename_i hany
        simp at hany
        exact hany
  have hdz : check_dizha cs = none := by
    unfold check_dizha
    split
    · rename_i h8
      exact absurd h6.2 (by rw [h8]; decide)
    · rfl
  have htz : check_tongzi cs = none := by
    unfold check_tongzi
    split
    · rename_i h3
      exact absurd h3.1 (by omega)
    · rfl
  have hbm : check_bomb cs = none := by
    unfold check_bomb
    split
    · rfl
    · split
      · rename_i rank heq
        have hm : rank ∈ sorted_ranks cs := by rw [heq]; exact List.mem_singleton.mpr rfl
        have hc := hcnt rank hm
        rw [if_pos (by omega)]
      · rfl
  have hne : ¬ cs = [] := by
    intro h
    rw [h] at h6
    simp at h6
  unfold analyze_cards
  rw [if_neg hne]
  simp only [checks, List.findSome?_cons, hdz, htz, hbm, hap]

/-- C2 counterexample: nine cards forming three rank-consecutive triples
satisfy both the AirplaneWithWings and the Airplane conditions, yet
`analyze_cards` classifies them as Airplane, not AirplaneWithWings. -/
theorem airplane_priority_cx :
    check_airplane
        [⟨.SPADES, .FIVE⟩, ⟨.HEARTS, .FIVE⟩, ⟨.CLUBS, .FIVE⟩,
         ⟨.SPADES, .SIX⟩, ⟨.HEARTS, .SIX⟩, ⟨.CLUBS, .SIX⟩,
         ⟨.SPADES, .SEVEN⟩, ⟨.HEARTS, .SEVEN⟩, ⟨.CLUBS, .SEVEN⟩] ≠ none ∧
    check_airplane_with_wings
        [⟨.SPADES, .FIVE⟩, ⟨.HEARTS, .FIVE⟩, ⟨.CLUBS, .FIVE⟩,
         ⟨.SPADES, .SIX⟩, ⟨.HEARTS, .SIX⟩, ⟨.CLUBS, .SIX⟩,
         ⟨.SPADES, .SEVEN⟩, ⟨.HEARTS, .SEVEN⟩, ⟨.CLUBS, .SEVEN⟩] ≠ none ∧
    (analyze_cards
        [⟨.SPADES, .FIVE⟩, ⟨.HEARTS, .FIVE⟩, ⟨.CLUBS, .FIVE⟩,
         ⟨.SPADES, .SIX⟩, ⟨.HEARTS, .SIX⟩, ⟨.CLUBS, .SIX⟩,
         ⟨.SPADES, .SEVEN⟩, ⟨.HEARTS, .SEVEN⟩, ⟨.CLUBS, .SEVEN⟩]).map
      PlayPattern.play_type = some PlayType.AIRPLANE ∧
    PlayType.AIRPLANE ≠ PlayType.AIRPLANE_WITH_WINGS := by decide

/-- Witness for the amended C2 at the nine-card input. -/
theorem airplane_priority_witness :
    analyze_cards
        [⟨.SPADES, .FIVE⟩, ⟨.HEARTS, .FIVE⟩, ⟨.CLUBS, .FIVE⟩,
         ⟨.SPADES, .SIX⟩, ⟨.HEARTS, .SIX⟩, ⟨.CLUBS, .SIX⟩,
         ⟨.SPADES, .SEVEN⟩, ⟨.HEARTS, .SEVEN⟩, ⟨.CLUBS, .SEVEN⟩] =
      some { play_type := .AIRPLANE, primary_rank := .SEVEN,
             secondary_ranks := [.FIVE, .SIX, .SEVEN], card_count := 9,
             strength := 7003 } ∧
    PlayPattern.play_type
      { play_type := .AIRPLANE, primary_rank := .SEVEN,
        secondary_ranks := [.FIVE, .SIX, .SEVEN], card_count := 9,
        strength := 7003 } = PlayType.AIRPLANE :=
  airplane_priority
    [⟨.SPADES, .FIVE⟩, ⟨.HEARTS, .FIVE⟩, ⟨.CLUBS, .FIVE⟩,
     ⟨.SPADES, .SIX⟩, ⟨.HEARTS, .SIX⟩, ⟨.CLUBS, .SIX⟩,
     ⟨.SPADES, .SEVEN⟩, ⟨.HEARTS, .SEVEN⟩, ⟨.CLUBS, .SEVEN⟩]
    { play_type := .AIRPLANE, primary_rank := .SEVEN,
      secondary_ranks := [.FIVE, .SIX, .SEVEN], card_count := 9,
      strength := 7003 }
    (by decide) (by decide)

theorem sorted_ranks_mem (cards : List Card) (r : Rank) :
    r ∈ sorted_ranks cards ↔ r ∈ cards.map Card.rank := by
  unfold sorted_ranks
  rw [(List.perm_insertionSort rankLe ((cards.map Card.rank).dedup)).mem_iff]
  exact List.mem_dedup

theorem count_rank_eq_length (cards : List Card) (r : Rank)
    (h : sorted_ranks cards = [r]) : count_rank cards r = cards.length := by
  unfold count_rank
  have hall : ∀ c ∈ cards, (fun c => decide (c.rank = r)) c = true := by
    intro c hc
    have : c.rank ∈ sorted_ranks cards :=
      (sorted_ranks_mem cards c.rank).mpr (List.mem_map_of_mem Card.rank hc)
    rw [h] at this
    simp only [List.mem_singleton] at this
    simp [this]
  rw [List.filter_eq_self.mpr hall]

theorem are_consecutive_chain (l : List Rank) (h : are_consecutive l = true) :
    List.Chain' (fun a b => b.value = a.value + 1) l := by
  induction l with
  | nil => simp
  | cons a t ih =>
    cases t with
    | nil => simp
    | cons b t2 =>
      simp only [are_consecutive, Bool.and_eq_true, decide_eq_true_eq] at h
      exact List.chain'_cons.mpr ⟨h.1, ih h.2⟩

/-- C10: every recognized pattern reports the size of its input in
`card_count`. -/
theorem pattern_card_count (cs : List Card) (p : PlayPattern)
    (h : analyze_cards cs = some p) : p.card_count = cs.length := by
  rcases analyze_cases cs p h with h' | h' | h' | h' | h' | h' | h' | h' | h' | h'
  · -- dizha
    unfold check_dizha at h'
    repeat' split at h'
    all_goals first | (cases h'; simp_all) | simp_all
  · -- tongzi
    unfold check_tongzi at h'
    repeat' split at h'
    all_goals first | (cases h'; simp_all) | simp_all
  · -- bomb
    unfold check_bomb at h'
    repeat' split at h'
    all_goals first
      | (cases h'; exact count_rank_eq_length cs _ (by assumption))
      | simp_all
  · -- airplane
    unfold check_airplane at h'
    repeat' split at h'
    all_goals first | (cases h'; rfl) | simp_all
  · -- airplane with wings
    unfold check_airplane_with_wings at h'
    split at h'
    · simp_all
    · try dsimp only at h'
      split at h'
      · simp_all
      · obtain ⟨k, _, hk⟩ := List.exists_of_findSome?_eq_some h'
        clear h'
        try dsimp only at hk
        obtain ⟨i, _, hi⟩ := List.exists_of_findSome?_eq_some hk
        clear hk
        try dsimp only at hi
        repeat' split at hi
        all_goals first | (cases hi; rfl) | (exact absurd hi (by simp))
  · -- triple with two
    unfold check_triple_with_two at h'
    repeat' split at h'
    all_goals first | (cases h'; simp_all) | simp_all
  · -- triple
    unfold check_triple at h'
    repeat' split at h'
    all_goals first | (cases h'; simp_all) | simp_all
  · -- consecutive pairs
    unfold check_consecutive_pairs at h'
    repeat' split at h'
    all_goals first | (cases h'; rfl) | simp_all
  · -- pair
    unfold check_pair at h'
    repeat' split at h'
    all_goals first | (cases h'; simp_all) | simp_all
  · -- single
    unfold check_single at h'
    split at h'
    · cases h'; rfl
    · simp_all

theorem pattern_card_count_witness :
    PlayPattern.card_count
      { play_type := .TONGZI, primary_rank := .KING, primary_suit := some .SPADES,
        card_count := 3, strength := 134000 } =
      ([⟨.SPADES, .KING⟩, ⟨.SPADES, .KING⟩, ⟨.SPADES, .KING⟩] : List Card).length :=
  pattern_card_count [⟨.SPADES, .KING⟩, ⟨.SPADES, .KING⟩, ⟨.SPADES, .KING⟩]
    { play_type := .TONGZI, primary_rank := .KING, primary_suit := some .SPADES,
      card_count := 3, strength := 134000 }
    (by decide)

/-- C9: the ranks of every recognized chain pattern form a strictly linear
contiguous run (adjacent numeric values differ by exactly one, with no
cyclic adjacency between 2 and 5); the A-A-2-2-5-5 multiset is not a
ConsecutivePairs pattern. -/
theorem chain_ranks_contiguous (cs : List Card) (p : PlayPattern)
    (h : analyze_cards cs = some p) (hc : p.play_type ∈ chain_types) :
    (are_consecutive p.secondary_ranks = true ∧
      List.Chain' (fun a b => b.value = a.value + 1) p.secondary_ranks) ∧
    (analyze_cards
        [⟨.SPADES, .ACE⟩, ⟨.HEARTS, .ACE⟩, ⟨.SPADES, .TWO⟩, ⟨.HEARTS, .TWO⟩,
         ⟨.SPADES, .FIVE⟩, ⟨.HEARTS, .FIVE⟩]).map PlayPattern.play_type ≠
      some PlayType.CONSECUTIVE_PAIRS := by
  refine ⟨?_, by decide⟩
  have main : are_consecutive p.secondary_ranks = true := by
    rcases analyze_cases cs p h with h' | h' | h' | h' | h' | h' | h' | h' | h' | h'
    · have := check_dizha_play_type cs p h'; simp_all [chain_types]
    · have := check_tongzi_play_type cs p h'; simp_all [chain_types]
    · have := check_bomb_play_type cs p h'; simp_all [chain_types]
    · unfold check_airplane at h'
      repeat' split at h'
      all_goals first | (cases h'; assumption) | simp_all
    · unfold check_airplane_with_wings at h'
      split at h'
      · simp_all
      · try dsimp only at h'
        split at h'
        · simp_all
        · obtain ⟨k, _, hk⟩ := List.exists_of_findSome?_eq_some h'
          clear h'
          try dsimp only at hk
          obtain ⟨i, _, hi⟩ := List.exists_of_findSome?_eq_some hk
          clear hk
          try dsimp only at hi
          repeat' split at hi
          all_goals first | (cases hi; assumption) | (exact absurd hi (by simp))
    · have := check_triple_with_two_play_type cs p h'; simp_all [chain_types]
    · have := check_triple_play_type cs p h'; simp_all [chain_types]
    · unfold check_consecutive_pairs at h'
      repeat' split at h'
      all_goals first | (cases h'; assumption) | simp_all
    · have := check_pair_play_type cs p h'; simp_all [chain_types]
    · have := check_single_play_type cs p h'; simp_all [chain_types]
  exact ⟨main, are_consecutive_chain _ main⟩

theorem chain_ranks_contiguous_witness :
    (are_consecutive
        (PlayPattern.secondary_ranks
          { play_type := .CONSECUTIVE_PAIRS, primary_rank := .SIX,
            secondary_ranks := [.FIVE, .SIX], card_count := 4, strength := 6002 }) = true ∧
      List.Chain' (fun a b => b.value = a.value + 1)
        (PlayPattern.secondary_ranks
          { play_type := .CONSECUTIVE_PAIRS, primary_rank := .SIX,
            secondary_ranks := [.FIVE, .SIX], card_count := 4, strength := 6002 })) ∧
    (analyze_cards
        [⟨.SPADES, .ACE⟩, ⟨.HEARTS, .ACE⟩, ⟨.SPADES, .TWO⟩, ⟨.HEARTS, .TWO⟩,
         ⟨.SPADES, .FIVE⟩, ⟨.HEARTS, .FIVE⟩]).map PlayPattern.play_type ≠
      some PlayType.CONSECUTIVE_PAIRS :=
  chain_ranks_contiguous
    [⟨.SPADES, .FIVE⟩, ⟨.HEARTS, .FIVE⟩, ⟨.SPADES, .SIX⟩, ⟨.HEARTS, .SIX⟩]
    { play_type := .CONSECUTIVE_PAIRS, primary_rank := .SIX,
      secondary_ranks := [.FIVE, .SIX], card_count := 4, strength := 6002 }
    (by decide) (by decide)

/-! ### Permutation invariance of recognition -/

theorem count_rank_perm (cs cs' : List Card) (h : cs.Perm cs') :
    count_rank cs = count_rank cs' := by
  funext r
  exact (h.filter _).length_eq

theorem count_suit_rank_perm (cs cs' : List Card) (h : cs.Perm cs') :
    count_suit_rank cs = count_suit_rank cs' := by
  funext s r
  exact (h.filter _).length_eq

theorem sorted_ranks_perm (cs cs' : List Card) (h : cs.Perm cs') :
    sorted_ranks cs = sorted_ranks cs' := by
  unfold sorted_ranks
  refine List.eq_of_perm_of_sorted ?_ (List.sorted_insertionSort rankLe _)
    (List.sorted_insertionSort rankLe _)
  exact ((List.perm_insertionSort rankLe _).trans ((h.map _).dedup)).trans
    (List.perm_insertionSort rankLe _).symm

theorem check_single_perm (cs cs' : List Card) (h : cs.Perm cs') :
    check_single cs = check_single cs' := by
  rcases cs with _ | ⟨a, _ | ⟨b, t⟩⟩ <;> rcases cs' with _ | ⟨c, _ | ⟨d, t'⟩⟩ <;>
    first
      | rfl
      | (have hlen := h.length_eq; simp at hlen; done)
      | (have hs := List.perm_singleton.mp h; simp_all [check_single])

theorem check_pair_perm (cs cs' : List Card) (h : cs.Perm cs') :
    check_pair cs = check_pair cs' := by
  unfold check_pair
  rw [h.length_eq, sorted_ranks_perm cs cs' h, count_rank_perm cs cs' h]

theorem check_triple_perm (cs cs' : List Card) (h : cs.Perm cs') :
    check_triple cs = check_triple cs' := by
  unfold check_triple
  rw [h.length_eq, sorted_ranks_perm cs cs' h, count_rank_perm cs cs' h]

theorem check_triple_with_two_perm (cs cs' : List Card) (h : cs.Perm cs') :
    check_triple_with_two cs = check_triple_with_two cs' := by
  unfold check_triple_with_two
  rw [h.length_eq, sorted_ranks_perm cs cs' h, count_rank_perm cs cs' h]

theorem check_consecutive_pairs_perm (cs cs' : List Card) (h : cs.Perm cs') :
    check_consecutive_pairs cs = check_consecutive_pairs cs' := by
  unfold check_consecutive_pairs
  rw [h.length_eq, sorted_ranks_perm cs cs' h, count_rank_perm cs cs' h]

theorem check_airplane_perm (cs cs' : List Card) (h : cs.Perm cs') :
    check_airplane cs = check_airplane cs' := by
  unfold check_airplane
  rw [h.length_eq, sorted_ranks_perm cs cs' h, count_rank_perm cs cs' h]

theorem check_airplane_with_wings_perm (cs cs' : List Card) (h : cs.Perm cs') :
    check_airplane_with_wings cs = check_airplane_with_wings cs' := by
  unfold check_airplane_with_wings
  rw [h.length_eq, sorted_ranks_perm cs cs' h, count_rank_perm cs cs' h]

theorem check_bomb_perm (cs cs' : List Card) (h : cs.Perm cs') :
    check_bomb cs = check_bomb cs' := by
  unfold check_bomb
  rw [h.length_eq, sorted_ranks_perm cs cs' h, count_rank_perm cs cs' h]

theorem check_dizha_perm (cs cs' : List Card) (h : cs.Perm cs') :
    check_dizha cs = check_dizha cs' := by
  unfold check_dizha
  rw [h.length_eq, sorted_ranks_perm cs cs' h, count_suit_rank_perm cs cs' h]

theorem check_tongzi_perm (cs cs' : List Card) (h : cs.Perm cs') :
    check_tongzi cs = check_tongzi cs' := by
  unfold check_tongzi
  rw [h.length_eq, sorted_ranks_perm cs cs' h, count_suit_rank_perm cs cs' h]
  have hd : (distinct_suit_ranks cs).Perm (distinct_suit_ranks cs') := (h.map _).dedup
  split
  · rcases e : distinct_suit_ranks cs with _ | ⟨x, _ | ⟨y, t⟩⟩ <;>
    rcases e' : distinct_suit_ranks cs' with _ | ⟨x', _ | ⟨y', t'⟩⟩ <;>
      rw [e, e'] at hd <;>
      first
        | rfl
        | (have hlen := hd.length_eq; simp at hlen; done)
        | (have hs := List.perm_singleton.mp hd; simp_all)
  · rfl

theorem analyze_cards_perm (cs cs' : List Card) (h : cs.Perm cs') :
    analyze_cards cs = analyze_cards cs' := by
  unfold analyze_cards
  by_cases he : cs = []
  · subst he
    have : cs' = [] := h.symm.eq_nil
    subst this
    rfl
  · have he' : ¬ cs' = [] := by
      intro hh
      subst hh
      exact he (List.Perm.eq_nil h)
    rw [if_neg he, if_neg he']
    simp only [checks, List.findSome?_cons, List.findSome?_nil]
    rw [check_dizha_perm cs cs' h, check_tongzi_perm cs cs' h, check_bomb_perm cs cs' h,
        check_airplane_perm cs cs' h, check_airplane_with_wings_perm cs cs' h,
        check_triple_with_two_perm cs cs' h, check_triple_perm cs cs' h,
        check_consecutive_pairs_perm cs cs' h, check_pair_perm cs cs' h,
        check_single_perm cs cs' h]

/-- C7: recognition is order independent: permuting the input multiset does
not change the result of `analyze_cards`. -/
theorem recognize_order_independent (cs cs' : List Card) (h : cs.Perm cs') :
    analyze_cards cs = analyze_cards cs' :=
  analyze_cards_perm cs cs' h

theorem recognize_order_independent_witness :
    analyze_cards [⟨.SPADES, .KING⟩, ⟨.HEARTS, .KING⟩, ⟨.CLUBS, .KING⟩] =
      analyze_cards [⟨.CLUBS, .KING⟩, ⟨.SPADES, .KING⟩, ⟨.HEARTS, .KING⟩] :=
  recognize_order_independent
    [⟨.SPADES, .KING⟩, ⟨.HEARTS, .KING⟩, ⟨.CLUBS, .KING⟩]
    [⟨.CLUBS, .KING⟩, ⟨.SPADES, .KING⟩, ⟨.HEARTS, .KING⟩]
    (by decide)

/-! ### The hand decomposer (`HandPatternAnalyzer`) -/

/-- The decomposition result (`HandPatterns` dataclass). -/
structure HandPatterns where
  dizha : List (List Card) := []
  tongzi : List (List Card) := []
  bombs : List (List Card) := []
  airplane_chains : List (List Card) := []
  triples : List (List Card) := []
  consecutive_pair_chains : List (List Card) := []
  pairs : List (List Card) := []
  singles : List Card := []
  total_cards : Nat := 0
  trump_count : Nat := 0
  has_control_cards : Bool := false
deriving DecidableEq, Repr

/-- `for card in group: remaining_cards.remove(card)` — Python `list.remove`
deletes the first occurrence; each extracted group is proven to be a
sub-multiset of the remaining cards, where `List.erase` behaves
identically. -/
def remove_group (remaining group : List Card) : List Card :=
  group.foldl (fun rem c => rem.erase c) remaining

/-- Removing one extracted group after another, in extraction order. -/
def remove_groups (remaining : List Card) (groups : List (List Card)) : List Card :=
  groups.foldl remove_group remaining

/-- `HandPatternAnalyzer._find_dizha`: for each rank with at least 8 cards
and at least 2 cards of every suit, take two cards of each suit and validate
with the recognizer. -/
def find_dizha (cards : List Card) : List (List Card) :=
  ((cards.map Card.rank).dedup).filterMap (fun r =>
    let rank_cards := cards.filter (fun c => c.rank = r)
    if rank_cards.length < 8 then none
    else if suit_list.all (fun s => 2 ≤ (rank_cards.filter (fun c => c.suit = s)).length) then
      match analyze_cards (suit_list.flatMap
          (fun s => (rank_cards.filter (fun c => c.suit = s)).take 2)) with
      | some p =>
          if p.play_type = PlayType.DIZHA then
            some (suit_list.flatMap (fun s => (rank_cards.filter (fun c => c.suit = s)).take 2))
          else none
      | none => none
    else none)

/-- `HandPatternAnalyzer._find_tongzi`: three cards of one (suit, rank)
group, validated. -/
def find_tongzi (cards : List Card) : List (List Card) :=
  (distinct_suit_ranks cards).filterMap (fun k =>
    let group_cards := cards.filter (fun c => (c.suit, c.rank) = k)
    if 3 ≤ group_cards.length then
      match analyze_cards (group_cards.take 3) with
      | some p =>
          if p.play_type = PlayType.TONGZI then some (group_cards.take 3) else none
      | none => none
    else none)

/-- `HandPatternAnalyzer._find_bombs`: every card of a rank with at least 4
cards, validated. -/
def find_bombs (cards : List Card) : List (List Card) :=
  ((cards.map Card.rank).dedup).filterMap (fun r =>
    let rank_cards := cards.filter (fun c => c.rank = r)
    if 4 ≤ rank_cards.length then
      match analyze_cards rank_cards with
      | some p => if p.play_type = PlayType.BOMB then some rank_cards else none
      | none => none
    else none)

/-- `HandPatternAnalyzer._find_triples`: three cards of a rank with at
least 3 cards, validated. -/
def find_triples (cards : List Card) : List (List Card) :=
  ((cards.map Card.rank).dedup).filterMap (fun r =>
    let rank_cards := cards.filter (fun c => c.rank = r)
    if 3 ≤ rank_cards.length then
      match analyze_cards (rank_cards.take 3) with
      | some p => if p.play_type = PlayType.TRIPLE then some (rank_cards.take 3) else none
      | none => none
    else none)

/-- The inner `while` loop of the chain finders: the maximal run of ranks
whose values increase by exactly one starting after `prev`, and the
leftover suffix. -/
def build_run (prev : Rank) : List Rank → List Rank × List Rank
  | [] => ([], [])
  | r :: rs =>
      if r.value = prev.value + 1 then
        (r :: (build_run r rs).1, (build_run r rs).2)
      else ([], r :: rs)

theorem build_run_append (prev : Rank) (l : List Rank) :
    (build_run prev l).1 ++ (build_run prev l).2 = l := by
  induction l generalizing prev with
  | nil => rfl
  | cons r rs ih =>
    unfold build_run
    split
    · simp [ih r]
    · rfl

theorem build_run_snd_length (prev : Rank) (l : List Rank) :
    (build_run prev l).2.length ≤ l.length := by
  conv_rhs => rw [← build_run_append prev l]
  simp

/-- The outer `while` loop shared by `_find_airplane_chains` (`n = 3`,
target `AIRPLANE`) and `_find_consecutive_pair_chains` (`n = 2`, target
`CONSECUTIVE_PAIRS`): walk the sorted valid ranks, carve out each maximal
consecutive run of length at least 2, take `n` cards of each rank of the
run, validate with the recognizer; on success continue after the run, on
failure retry from the next rank. -/
def chain_loop (n : Nat) (target : PlayType) (cards : List Card) : List Rank → List (List Card)
  | [] => []
  | r :: rs =>
      if 2 ≤ (r :: (build_run r rs).1).length then
        match analyze_cards ((r :: (build_run r rs).1).flatMap
            (fun rk => (cards.filter (fun c => c.rank = rk)).take n)) with
        | some p =>
            if p.play_type = target then
              ((r :: (build_run r rs).1).flatMap
                  (fun rk => (cards.filter (fun c => c.rank = rk)).take n)) ::
                chain_loop n target cards (build_run r rs).2
            else chain_loop n target cards rs
        | none => chain_loop n target cards rs
      else chain_loop n target cards rs
termination_by l => l.length
decreasing_by
  all_goals simp only [List.length_cons]
  all_goals first
    | exact Nat.lt_succ_of_le (build_run_snd_length r rs)
    | exact Nat.lt_succ_self rs.length

/-- `HandPatternAnalyzer._find_airplane_chains`. -/
def find_airplane_chains (cards : List Card) : List (List Card) :=
  chain_loop 3 PlayType.AIRPLANE cards
    ((sorted_ranks cards).filter (fun r => 3 ≤ count_rank cards r))

/-- `HandPatternAnalyzer._find_consecutive_pair_chains`. -/
def find_consecutive_pair_chains (cards : List Card) : List (List Card) :=
  chain_loop 2 PlayType.CONSECUTIVE_PAIRS cards
    ((sorted_ranks cards).filter (fun r => 2 ≤ count_rank cards r))

/-- The `while len(cards) >= 2` loop of `_extract_pairs`: successive pairs
carved off the front of one rank group. -/
def pair_chunks : List Card → List (List Card)
  | a :: b :: rest => [a, b] :: pair_chunks rest
  | _ => []

/-- `HandPatternAnalyzer._extract_pairs`: ranks in descending value order,
pairs carved per rank group. -/
def find_pairs (cards : List Card) : List (List Card) :=
  ((sorted_ranks cards).reverse).flatMap
    (fun r => pair_chunks (cards.filter (fun c => c.rank = r)))

/-- Descending sort of one bucket by a (major, minor) numeric key — the
`list.sort(key=..., reverse=True)` calls at the end of the extraction
steps. -/
def key_ge {α : Type} (k : α → Nat × Nat) (a b : α) : Prop :=
  (k b).1 < (k a).1 ∨ ((k a).1 = (k b).1 ∧ (k b).2 ≤ (k a).2)

instance {α : Type} (k : α → Nat × Nat) : DecidableRel (key_ge k) := by
  intro a b
  unfold key_ge
  infer_instance

def sort_groups {α : Type} (k : α → Nat × Nat) (l : List α) : List α :=
  l.insertionSort (key_ge k)

/-- Key helper: rank value of the first card of a bucket (`x[0].rank.value`). -/
def head_rank_value : List Card → Nat
  | [] => 0
  | c :: _ => c.rank.value

/-- Key helper: suit value of the first card of a bucket (`x[0].suit.value`). -/
def head_suit_value : List Card → Nat
  | [] => 0
  | c :: _ => c.suit.value

/-- Remaining hand after step 1 (dizha, tongzi and bombs extracted — the
three removals of `_extract_trump_cards`). -/
def rem_dizha (hand : List Card) : List Card := remove_groups hand (find_dizha hand)

def rem_tongzi (hand : List Card) : List Card :=
  remove_groups (rem_dizha hand) (find_tongzi (rem_dizha hand))

def rem_bombs (hand : List Card) : List Card :=
  remove_groups (rem_tongzi hand) (find_bombs (rem_tongzi hand))

/-- Remaining hand after `_extract_airplane_chains`. -/
def rem_airplanes (hand : List Card) : List Card :=
  remove_groups (rem_bombs hand) (find_airplane_chains (rem_bombs hand))

/-- Remaining hand after `_extract_triples`. -/
def rem_triples (hand : List Card) : List Card :=
  remove_groups (rem_airplanes hand) (find_triples (rem_airplanes hand))

/-- Remaining hand after `_extract_consecutive_pair_chains`. -/
def rem_consec (hand : List Card) : List Card :=
  remove_groups (rem_triples hand) (find_consecutive_pair_chains (rem_triples hand))

/-- Remaining hand after `_extract_pairs`; `_extract_singles` turns all of
it into the singles bucket. -/
def rem_pairs (hand : List Card) : List Card :=
  remove_groups (rem_consec hand) (find_pairs (rem_consec hand))

/-- `HandPatternAnalyzer.analyze_patterns`: the priority-ordered,
non-overlapping greedy decomposition of a hand, with each bucket sorted
descending by its comparison key and the metadata of step 7. -/
def analyze_patterns (hand : List Card) : HandPatterns :=
  if hand = [] then { total_cards := 0 }
  else
    { dizha := sort_groups (fun g => (head_rank_value g, 0)) (find_dizha hand)
      tongzi := sort_groups (fun g => (head_suit_value g, head_rank_value g))
        (find_tongzi (rem_dizha hand))
      bombs := sort_groups (fun g => (g.length, head_rank_value g))
        (find_bombs (rem_tongzi hand))
      airplane_chains := sort_groups (fun g => (g.length, head_rank_value g))
        (find_airplane_chains (rem_bombs hand))
      triples := sort_groups (fun g => (head_rank_value g, 0))
        (find_triples (rem_airplanes hand))
      consecutive_pair_chains := sort_groups (fun g => (g.length, head_rank_value g))
        (find_consecutive_pair_chains (rem_triples hand))
      pairs := find_pairs (rem_consec hand)
      singles := (rem_pairs hand).insertionSort (fun a b => b.rank.value ≤ a.rank.value)
      total_cards := hand.length
      trump_count := (find_dizha hand).length + (find_tongzi (rem_dizha hand)).length +
        (find_bombs (rem_tongzi hand)).length
      has_control_cards := hand.any
        (fun c => c.rank = Rank.TWO ∨ c.rank = Rank.ACE ∨ c.rank = Rank.KING) }

/-! ### Counting machinery for the partition invariant -/

theorem remove_group_perm (group : List Card) : ∀ rem : List Card, group.Subperm rem →
    rem.Perm (group ++ remove_group rem group) := by
  induction group with
  | nil =>
    intro rem _
    simp [remove_group]
  | cons c g ih =>
    intro rem h
    have hc : c ∈ rem := h.subset (List.mem_cons_self c g)
    have hp : rem.Perm (c :: rem.erase c) := List.perm_cons_erase hc
    have hsub : g.Subperm (rem.erase c) :=
      (List.subperm_cons c).mp (h.trans hp.subperm)
    exact hp.trans ((ih _ hsub).cons c)

theorem remove_groups_perm (groups : List (List Card)) : ∀ rem : List Card,
    groups.flatten.Subperm rem →
    rem.Perm (groups.flatten ++ remove_groups rem groups) := by
  induction groups with
  | nil =>
    intro rem _
    simp [remove_groups]
  | cons g gs ih =>
    intro rem h
    rw [List.flatten_cons] at h ⊢
    have hg : g.Subperm rem := (List.sublist_append_left g gs.flatten).subperm.trans h
    have h1 : rem.Perm (g ++ remove_group rem g) := remove_group_perm g rem hg
    have hgs : gs.flatten.Subperm (remove_group rem g) := by
      rw [List.subperm_ext_iff]
      intro x hx
      have hcount := h1.count_eq x
      rw [List.count_append] at hcount
      have hle := List.subperm_ext_iff.mp h x
        (List.mem_append_right g hx)
      rw [List.count_append] at hle
      omega
    have h2 := ih (remove_group rem g) hgs
    rw [List.append_assoc]
    exact h1.trans (h2.append_left g)

/-- Groups drawn from pairwise-distinct key classes of a hand: each key's
contribution is bounded by that key's filter class, so the combined
contribution is bounded by the hand. -/
theorem flatMap_zero_count {K : Type} [DecidableEq K] (key : Card → K)
    (f : K → List Card) (cards : List Card)
    (hf : ∀ k x, (f k).count x ≤ (cards.filter (fun c => key c = k)).count x)
    (x : Card) (ks : List K) (hks : ∀ k ∈ ks, ¬ key x = k) :
    (ks.flatMap f).count x = 0 := by
  induction ks with
  | nil => simp
  | cons k ks ih =>
    rw [List.flatMap_cons, List.count_append]
    have h0 : (cards.filter (fun c => decide (key c = k))).count x = 0 := by
      rw [List.count_eq_zero]
      intro hx
      have := List.of_mem_filter hx
      simp only [decide_eq_true_eq] at this
      exact hks k (List.mem_cons_self k ks) this
    have h1 := hf k x
    rw [h0] at h1
    have h2 := ih (fun k' hk' => hks k' (List.mem_cons_of_mem k hk'))
    omega

theorem flatMap_per_key_count {K : Type} [DecidableEq K] (key : Card → K)
    (f : K → List Card) (cards : List Card)
    (hf : ∀ k x, (f k).count x ≤ (cards.filter (fun c => key c = k)).count x)
    (keys : List K) (hnd : keys.Nodup) (x : Card) :
    (keys.flatMap f).count x ≤ cards.count x := by
  induction keys with
  | nil => simp
  | cons k ks ih =>
    rw [List.flatMap_cons, List.count_append]
    rcases List.nodup_cons.mp hnd with ⟨hk, hnd'⟩
    by_cases hx : key x = k
    · have h0 : (ks.flatMap f).count x = 0 :=
        flatMap_zero_count key f cards hf x ks
          (fun k' hk' hEq => hk ((hx.symm.trans hEq) ▸ hk'))
      have h1 : (f k).count x ≤ cards.count x :=
        le_trans (hf k x) ((List.filter_sublist cards).count_le x)
      omega
    · have h0 : (cards.filter (fun c => decide (key c = k))).count x = 0 := by
        rw [List.count_eq_zero]
        intro hxm
        have := List.of_mem_filter hxm
        simp only [decide_eq_true_eq] at this
        exact hx this
      have h1 := hf k x
      rw [h0] at h1
      have h2 := ih hnd'
      omega

theorem flatten_filterMap {K : Type} (keys : List K) (fopt : K → Option (List Card)) :
    (keys.filterMap fopt).flatten = keys.flatMap (fun k => (fopt k).getD []) := by
  induction keys with
  | nil => rfl
  | cons k ks ih =>
    rw [List.filterMap_cons]
    cases hfk : fopt k <;> simp [ih, hfk]

theorem flatMap_count_mono {K : Type} (f g : K → List Card) (l : List K) (x : Card)
    (h : ∀ k ∈ l, (f k).count x ≤ (g k).count x) :
    (l.flatMap f).count x ≤ (l.flatMap g).count x := by
  induction l with
  | nil => simp
  | cons k ks ih =>
    rw [List.flatMap_cons, List.flatMap_cons, List.count_append, List.count_append]
    have h1 := h k (List.mem_cons_self k ks)
    have h2 := ih (fun k' hk' => h k' (List.mem_cons_of_mem k hk'))
    omega

theorem pair_chunks_flatten_sublist : ∀ l : List Card, (pair_chunks l).flatten.Sublist l
  | [] => by simp [pair_chunks]
  | [a] => by simp [pair_chunks]
  | a :: b :: rest => by
      simp only [pair_chunks, List.flatten_cons]
      exact ((pair_chunks_flatten_sublist rest).cons₂ b).cons₂ a

theorem sorted_ranks_nodup (cards : List Card) : (sorted_ranks cards).Nodup :=
  ((List.perm_insertionSort rankLe _).nodup_iff).mpr (List.nodup_dedup _)

/-! ### Each finder only takes cards that are present -/

theorem find_dizha_count (cards : List Card) (x : Card) :
    ((find_dizha cards).flatten).count x ≤ cards.count x := by
  unfold find_dizha
  rw [flatten_filterMap]
  refine flatMap_per_key_count Card.rank _ cards ?_ _ (List.nodup_dedup _) x
  intro r y
  dsimp only
  split
  · simp
  · split
    · split
      · split
        · simp only [Option.getD_some]
          refine le_trans
            (flatMap_per_key_count Card.suit
              (fun s => ((cards.filter (fun c => c.rank = r)).filter (fun c => c.suit = s)).take 2)
              (cards.filter (fun c => c.rank = r)) ?_ suit_list (by decide) y) ?_
          · intro s z
            exact (List.take_sublist 2 _).count_le z
          · exact le_of_eq rfl
        · simp
      · simp
    · simp

theorem find_tongzi_count (cards : List Card) (x : Card) :
    ((find_tongzi cards).flatten).count x ≤ cards.count x := by
  unfold find_tongzi distinct_suit_ranks
  rw [flatten_filterMap]
  refine flatMap_per_key_count (fun c => (c.suit, c.rank)) _ cards ?_ _ (List.nodup_dedup _) x
  intro k y
  dsimp only
  split
  · split
    · split
      · simp only [Option.getD_some]
        exact (List.take_sublist 3 _).count_le y
      · simp
    · simp
  · simp

theorem find_bombs_count (cards : List Card) (x : Card) :
    ((find_bombs cards).flatten).count x ≤ cards.count x := by
  unfold find_bombs
  rw [flatten_filterMap]
  refine flatMap_per_key_count Card.rank _ cards ?_ _ (List.nodup_dedup _) x
  intro r y
  dsimp only
  split
  · split
    · split
      · simp only [Option.getD_some]
        exact le_refl _
      · simp
    · simp
  · simp

theorem find_triples_count (cards : List Card) (x : Card) :
    ((find_triples cards).flatten).count x ≤ cards.count x := by
  unfold find_triples
  rw [flatten_filterMap]
  refine flatMap_per_key_count Card.rank _ cards ?_ _ (List.nodup_dedup _) x
  intro r y
  dsimp only
  split
  · split
    · split
      · simp only [Option.getD_some]
        exact (List.take_sublist 3 _).count_le y
      · simp
    · simp
  · simp

theorem chain_loop_count (n : Nat) (target : PlayType) (cards : List Card) :
    ∀ N (l : List Rank), l.length ≤ N → ∀ x : Card,
      ((chain_loop n target cards l).flatten).count x ≤
        (l.flatMap (fun r => cards.filter (fun c => c.rank = r))).count x := by
  intro N
  induction N with
  | zero =>
    intro l hl x
    cases l with
    | nil => simp [chain_loop]
    | cons r rs => simp at hl
  | succ N ih =>
    intro l hl x
    cases l with
    | nil => simp [chain_loop]
    | cons r rs =>
      have hrs : rs.length ≤ N := by
        simp only [List.length_cons] at hl
        omega
      have hrest : (build_run r rs).2.length ≤ N :=
        le_trans (build_run_snd_length r rs) hrs
      have hsplit : rs.flatMap (fun r => cards.filter (fun c => c.rank = r)) =
          (build_run r rs).1.flatMap (fun r => cards.filter (fun c => c.rank = r)) ++
          (build_run r rs).2.flatMap (fun r => cards.filter (fun c => c.rank = r)) := by
        conv_lhs => rw [← build_run_append r rs]
        rw [List.flatMap_append]
      rw [chain_loop]
      split
      · split
        · split
          · -- successful chain extraction
            rw [List.flatten_cons, List.count_append]
            conv_lhs => rw [List.flatMap_cons, List.count_append]
            conv_rhs => rw [List.flatMap_cons, List.count_append, hsplit, List.count_append]
            have h1a : ((cards.filter (fun c => c.rank = r)).take n).count x ≤
                (cards.filter (fun c => c.rank = r)).count x :=
              (List.take_sublist n _).count_le x
            have h1b : ((build_run r rs).1.flatMap
                (fun rk => (cards.filter (fun c => c.rank = rk)).take n)).count x ≤
                ((build_run r rs).1.flatMap
                  (fun rk => cards.filter (fun c => c.rank = rk))).count x := by
              refine flatMap_count_mono _ _ _ x ?_
              intro k _
              exact (List.take_sublist n _).count_le x
            have h2 := ih (build_run r rs).2 hrest x
            omega
          · -- validation returned the wrong type
            have h2 := ih rs hrs x
            rw [List.flatMap_cons, List.count_append]
            omega
        · -- validation failed
          have h2 := ih rs hrs x
          rw [List.flatMap_cons, List.count_append]
          omega
      · -- run of length < 2
        have h2 := ih rs hrs x
        rw [List.flatMap_cons, List.count_append]
        omega

theorem find_airplane_chains_count (cards : List Card) (x : Card) :
    ((find_airplane_chains cards).flatten).count x ≤ cards.count x := by
  unfold find_airplane_chains
  refine le_trans (chain_loop_count 3 PlayType.AIRPLANE cards _ _ (le_refl _) x) ?_
  refine flatMap_per_key_count Card.rank _ cards ?_ _
    ((sorted_ranks_nodup cards).filter _) x
  intro r y
  exact le_of_eq rfl

theorem find_consecutive_pair_chains_count (cards : List Card) (x : Card) :
    ((find_consecutive_pair_chains cards).flatten).count x ≤ cards.count x := by
  unfold find_consecutive_pair_chains
  refine le_trans (chain_loop_count 2 PlayType.CONSECUTIVE_PAIRS cards _ _ (le_refl _) x) ?_
  refine flatMap_per_key_count Card.rank _ cards ?_ _
    ((sorted_ranks_nodup cards).filter _) x
  intro r y
  exact le_of_eq rfl

theorem flatten_flatMap_groups {K : Type} (keys : List K) (f : K → List (List Card)) :
    (keys.flatMap f).flatten = keys.flatMap (fun k => (f k).flatten) := by
  induction keys with
  | nil => rfl
  | cons k ks ih => simp [List.flatMap_cons, ih]

theorem find_pairs_count (cards : List Card) (x : Card) :
    ((find_pairs cards).flatten).count x ≤ cards.count x := by
  unfold find_pairs
  rw [flatten_flatMap_groups]
  refine flatMap_per_key_count Card.rank _ cards ?_ _
    (List.nodup_reverse.mpr (sorted_ranks_nodup cards)) x
  intro r y
  exact (pair_chunks_flatten_sublist _).count_le y

theorem find_dizha_subperm (cards : List Card) : (find_dizha cards).flatten.Subperm cards :=
  List.subperm_ext_iff.mpr (fun x _ => find_dizha_count cards x)

theorem find_tongzi_subperm (cards : List Card) : (find_tongzi cards).flatten.Subperm cards :=
  List.subperm_ext_iff.mpr (fun x _ => find_tongzi_count cards x)

theorem find_bombs_subperm (cards : List Card) : (find_bombs cards).flatten.Subperm cards :=
  List.subperm_ext_iff.mpr (fun x _ => find_bombs_count cards x)

theorem find_airplane_chains_subperm (cards : List Card) :
    (find_airplane_chains cards).flatten.Subperm cards :=
  List.subperm_ext_iff.mpr (fun x _ => find_airplane_chains_count cards x)

theorem find_triples_subperm (cards : List Card) : (find_triples cards).flatten.Subperm cards :=
  List.subperm_ext_iff.mpr (fun x _ => find_triples_count cards x)

theorem find_consecutive_pair_chains_subperm (cards : List Card) :
    (find_consecutive_pair_chains cards).flatten.Subperm cards :=
  List.subperm_ext_iff.mpr (fun x _ => find_consecutive_pair_chains_count cards x)

theorem find_pairs_subperm (cards : List Card) : (find_pairs cards).flatten.Subperm cards :=
  List.subperm_ext_iff.mpr (fun x _ => find_pairs_count cards x)

/-- C1: the multiset union of all bucket contents of the decomposition
equals the input hand exactly: no card is duplicated and none is dropped. -/
theorem decompose_partition (hand : List Card) :
    ((analyze_patterns hand).dizha.flatten ++ (analyze_patterns hand).tongzi.flatten ++
     (analyze_patterns hand).bombs.flatten ++
     (analyze_patterns hand).airplane_chains.flatten ++
     (analyze_patterns hand).triples.flatten ++
     (analyze_patterns hand).consecutive_pair_chains.flatten ++
     (analyze_patterns hand).pairs.flatten ++ (analyze_patterns hand).singles).Perm hand := by
  by_cases he : hand = []
  · subst he
    simp [analyze_patterns]
  · have hD : hand.Perm ((find_dizha hand).flatten ++ rem_dizha hand) :=
      remove_groups_perm (find_dizha hand) hand (find_dizha_subperm hand)
    have hT : (rem_dizha hand).Perm
        ((find_tongzi (rem_dizha hand)).flatten ++ rem_tongzi hand) :=
      remove_groups_perm _ _ (find_tongzi_subperm (rem_dizha hand))
    have hB : (rem_tongzi hand).Perm
        ((find_bombs (rem_tongzi hand)).flatten ++ rem_bombs hand) :=
      remove_groups_perm _ _ (find_bombs_subperm (rem_tongzi hand))
    have hA : (rem_bombs hand).Perm
        ((find_airplane_chains (rem_bombs hand)).flatten ++ rem_airplanes hand) :=
      remove_groups_perm _ _ (find_airplane_chains_subperm (rem_bombs hand))
    have hTr : (rem_airplanes hand).Perm
        ((find_triples (rem_airplanes hand)).flatten ++ rem_triples hand) :=
      remove_groups_perm _ _ (find_triples_subperm (rem_airplanes hand))
    have hC : (rem_triples hand).Perm
        ((find_consecutive_pair_chains (rem_triples hand)).flatten ++ rem_consec hand) :=
      remove_groups_perm _ _ (find_consecutive_pair_chains_subperm (rem_triples hand))
    have hP : (rem_consec hand).Perm
        ((find_pairs (rem_consec hand)).flatten ++ rem_pairs hand) :=
      remove_groups_perm _ _ (find_pairs_subperm (rem_consec hand))
    have c2 : hand.Perm ((find_dizha hand).flatten ++
        ((find_tongzi (rem_dizha hand)).flatten ++ rem_tongzi hand)) :=
      hD.trans (hT.append_left _)
    have c3 : hand.Perm ((find_dizha hand).flatten ++
        ((find_tongzi (rem_dizha hand)).flatten ++
          ((find_bombs (rem_tongzi hand)).flatten ++ rem_bombs hand))) :=
      c2.trans ((hB.append_left _).append_left _)
    have c4 : hand.Perm ((find_dizha hand).flatten ++
        ((find_tongzi (rem_dizha hand)).flatten ++
          ((find_bombs (rem_tongzi hand)).flatten ++
            ((find_airplane_chains (rem_bombs hand)).flatten ++ rem_airplanes hand)))) :=
      c3.trans (((hA.append_left _).append_left _).append_left _)
    have c5 : hand.Perm ((find_dizha hand).flatten ++
        ((find_tongzi (rem_dizha hand)).flatten ++
          ((find_bombs (rem_tongzi hand)).flatten ++
            ((find_airplane_chains (rem_bombs hand)).flatten ++
              ((find_triples (rem_airplanes hand)).flatten ++ rem_triples hand))))) :=
      c4.trans ((((hTr.append_left _).append_left _).append_left _).append_left _)
    have c6 : hand.Perm ((find_dizha hand).flatten ++
        ((find_tongzi (rem_dizha hand)).flatten ++
          ((find_bombs (rem_tongzi hand)).flatten ++
            ((find_airplane_chains (rem_bombs hand)).flatten ++
              ((find_triples (rem_airplanes hand)).flatten ++
                ((find_consecutive_pair_chains (rem_triples hand)).flatten ++
                  rem_consec hand)))))) :=
      c5.trans (((((hC.append_left _).append_left _).append_left _).append_left _).append_left _)
    have c7 : hand.Perm ((find_dizha hand).flatten ++
        ((find_tongzi (rem_dizha hand)).flatten ++
          ((find_bombs (rem_tongzi hand)).flatten ++
            ((find_airplane_chains (rem_bombs hand)).flatten ++
              ((find_triples (rem_airplanes hand)).flatten ++
                ((find_consecutive_pair_chains (rem_triples hand)).flatten ++
                  ((find_pairs (rem_consec hand)).flatten ++ rem_pairs hand))))))) :=
      c6.trans ((((((hP.append_left _).append_left _).append_left _).append_left _).append_left
        _).append_left _)
    have hsd : ((sort_groups (fun g => (head_rank_value g, 0))
        (find_dizha hand)).flatten).Perm (find_dizha hand).flatten :=
      (List.perm_insertionSort _ _).flatten
    have hst : ((sort_groups (fun g => (head_suit_value g, head_rank_value g))
        (find_tongzi (rem_dizha hand))).flatten).Perm (find_tongzi (rem_dizha hand)).flatten :=
      (List.perm_insertionSort _ _).flatten
    have hsb : ((sort_groups (fun g => (g.length, head_rank_value g))
        (find_bombs (rem_tongzi hand))).flatten).Perm (find_bombs (rem_tongzi hand)).flatten :=
      (List.perm_insertionSort _ _).flatten
    have hsa : ((sort_groups (fun g => (g.length, head_rank_value g))
        (find_airplane_chains (rem_bombs hand))).flatten).Perm
        (find_airplane_chains (rem_bombs hand)).flatten :=
      (List.perm_insertionSort _ _).flatten
    have hstr : ((sort_groups (fun g => (head_rank_value g, 0))
        (find_triples (rem_airplanes hand))).flatten).Perm
        (find_triples (rem_airplanes hand)).flatten :=
      (List.perm_insertionSort _ _).flatten
    have hsc : ((sort_groups (fun g => (g.length, head_rank_value g))
        (find_consecutive_pair_chains (rem_triples hand))).flatten).Perm
        (find_consecutive_pair_chains (rem_triples hand)).flatten :=
      (List.perm_insertionSort _ _).flatten
    have hss : ((rem_pairs hand).insertionSort
        (fun a b => b.rank.value ≤ a.rank.value)).Perm (rem_pairs hand) :=
      List.perm_insertionSort _ _
    have hcomp := hsd.append (hst.append (hsb.append (hsa.append (hstr.append
      (hsc.append ((List.Perm.refl ((find_pairs (rem_consec hand)).flatten)).append hss))))))
    simp only [analyze_patterns, if_neg he, List.append_assoc]
    exact hcomp.trans c7.symm
